import Mathlib

/-!
Shallow embedding of the authentication core of the `vitalya420/api` repository
(OTP issuance, token pair lifecycle, JWT-shaped codec, redis read-through cache,
web password login), together with theorems settling the frozen claims about it.

Conventions used throughout:
* `datetime` values are unix timestamps modelled as `Int` (seconds);
  `timedelta` values are second counts.
* SQLAlchemy tables are Lean lists of records, in insertion order;
  `select(...).where(P)` with `.first()` is `List.find?`, with `.all()` is
  `List.filter`; an `update(...).where(P).values(...)` is a `List.map` that
  rewrites the rows matching `P` and its `rowcount` is the number of rows hit.
* Fallible Python code is `Except Err _`; a raised exception is `.error e`.
* Python attribute access on ORM objects is modelled by a `pygetattr` function
  per model class that enumerates exactly the attributes the class defines in
  `src/app/models/...`; reading any other name is `Err.attributeError`,
  mirroring Python's `AttributeError`.
* Sources of randomness (`random.randint` draws, UUID jtis) and the ambient
  clock (`datetime.utcnow()`) are passed in as explicit arguments.
-/

/-- `app/enums.py` / `app/schemas/user.py`: deployment surface of a credential. -/
inductive Realm where
  | web
  | mobile
  deriving DecidableEq

/-- The exception kinds raised by the embedded code.  `attributeError`,
`keyError` and `runtimeError` model the corresponding Python exceptions;
the rest model the sanic/api exception classes of `app/exceptions.py`. -/
inductive Err where
  | unauthorized
  | badRequest
  | notFound
  | smsCooldown
  | businessDoesNotExist
  | userDoesNotExist
  | userHasNoBusinesses
  | youAreRetarded
  | wrongPassword
  | attributeError (attr : String)
  | keyError (key : String)
  | typeError
  | runtimeError
  | unpicklingError
  deriving DecidableEq

/-- `app/models/business.py`: the part of a `Business` row that the claims
touch (its identifying `code`). -/
structure Business where
  code : String
  deriving DecidableEq

/-- A Python value as far as the embedded code inspects one. -/
inductive PyVal where
  | vNone
  | vStr (s : String)
  | vInt (n : Int)
  | vBool (b : Bool)
  | vRealm (r : Realm)
  | vBusiness (b : Business)
  deriving DecidableEq

/-- Python truthiness of a `PyVal` (`if value:`). -/
def PyVal.pyTruthy : PyVal → Bool
  | .vNone => false
  | .vStr s => s ≠ ""
  | .vInt n => n ≠ 0
  | .vBool b => b
  | .vRealm _ => true
  | .vBusiness _ => true

/-- Python truthiness of an optional string (`None` and `""` are falsy). -/
def pyOptStrTruthy : Option String → Bool
  | none => false
  | some s => s ≠ ""

/-- Whether an `Except` carries a value (Python: the call returned instead of
raising). -/
def exceptOk {α : Type} : Except Err α → Bool
  | .ok _ => true
  | .error _ => false

/-- `app/utils/helper.py` `random_code`: Python's `f"{code:0{length}d}"`,
zero-padding the decimal rendering of `code` to a minimum width of `length`. -/
def pyFormatZeroPad (code : Nat) (length : Nat) : String :=
  let s := toString code
  String.mk (List.replicate (length - s.length) '0') ++ s

/-- `app/utils/helper.py` `random_code(length)`: the body computes
`end = pow(10, length)`, draws `code = random.randint(1, end)` and returns
`f"{code:0{length}d}"`.  The draw is passed in explicitly. -/
def random_code (length : Nat) (draw : Nat) : String :=
  pyFormatZeroPad draw length

/-- The range of Python's `random.randint(lo, hi)`: both endpoints inclusive. -/
def randintRange (lo hi draw : Nat) : Prop :=
  lo ≤ draw ∧ draw ≤ hi

instance (lo hi draw : Nat) : Decidable (randintRange lo hi draw) := by
  unfold randintRange; infer_instance

/-- `random_code`'s upper draw bound `end = pow(10, length)`. -/
def randomCodeUpperBound (length : Nat) : Nat := 10 ^ length

/-- `app/models/token.py` `RefreshToken` (columns of `Token` plus its own):
`jti`, `realm` (nullable), `user_id`, `revoked`, `issued_at`, `expires_at`,
`business_code` (nullable).  `access_token_jti` is NOT a mapped column of this
model; the back-patch line of `TokensRepository.create_tokens` assigns it as a
plain Python attribute (on its unreachable success tail), so it is carried
here as an `Option` that is `none` until that assignment happens. -/
structure RefreshToken where
  jti : String
  realm : Option Realm
  user_id : Int
  revoked : Bool
  issued_at : Int
  expires_at : Int
  business_code : Option String
  access_token_jti : Option String
  deriving DecidableEq

/-- `app/models/token.py` `AccessToken` columns: `jti`, `realm` (nullable),
`user_id`, `business_code` (nullable), `ip_addr`, `user_agent`, `issued_at`,
`expires_at`, `revoked`, `refresh_token_jti`. -/
structure AccessToken where
  jti : String
  realm : Option Realm
  user_id : Int
  business_code : Option String
  ip_addr : String
  user_agent : String
  issued_at : Int
  expires_at : Int
  revoked : Bool
  refresh_token_jti : String
  deriving DecidableEq

/-- The attribute names `AccessToken` instances expose: the mapped columns,
the `refresh_token` relationship, the `ip_address` property and the methods
defined in the class body of `app/models/token.py`. -/
def AccessToken.attrNames : List String :=
  ["jti", "realm", "user_id", "business_code", "ip_addr", "user_agent",
   "issued_at", "expires_at", "revoked", "refresh_token_jti", "refresh_token",
   "ip_address", "is_alive"]

/-- The attribute names `RefreshToken` instances expose (mapped columns, the
`access_token` relationship and the methods of `app/models/token.py`). -/
def RefreshToken.attrNames : List String :=
  ["jti", "realm", "user_id", "revoked", "issued_at", "expires_at",
   "business_code", "access_token", "is_alive"]

/-- Python attribute access on an `AccessToken` ORM instance: defined exactly
for the names in `AccessToken.attrNames` whose value the embedding can
represent, `AttributeError` for anything else.  `issued_at`/`expires_at` are
returned as their unix timestamp (the callers immediately apply
`.timestamp()`). -/
def AccessToken.pygetattr (t : AccessToken) (a : String) : Except Err PyVal :=
  if a = "jti" then .ok (.vStr t.jti)
  else if a = "realm" then .ok (match t.realm with | none => .vNone | some r => .vRealm r)
  else if a = "user_id" then .ok (.vInt t.user_id)
  else if a = "business_code" then .ok (match t.business_code with | none => .vNone | some s => .vStr s)
  else if a = "ip_addr" then .ok (.vStr t.ip_addr)
  else if a = "user_agent" then .ok (.vStr t.user_agent)
  else if a = "issued_at" then .ok (.vInt t.issued_at)
  else if a = "expires_at" then .ok (.vInt t.expires_at)
  else if a = "revoked" then .ok (.vBool t.revoked)
  else if a = "refresh_token_jti" then .ok (.vStr t.refresh_token_jti)
  else if a = "ip_address" then .ok (.vStr t.ip_addr)
  else .error (.attributeError a)

/-- Python attribute access on a `RefreshToken` ORM instance (see
`AccessToken.pygetattr`). -/
def RefreshToken.pygetattr (t : RefreshToken) (a : String) : Except Err PyVal :=
  if a = "jti" then .ok (.vStr t.jti)
  else if a = "realm" then .ok (match t.realm with | none => .vNone | some r => .vRealm r)
  else if a = "user_id" then .ok (.vInt t.user_id)
  else if a = "revoked" then .ok (.vBool t.revoked)
  else if a = "issued_at" then .ok (.vInt t.issued_at)
  else if a = "expires_at" then .ok (.vInt t.expires_at)
  else if a = "business_code" then .ok (match t.business_code with | none => .vNone | some s => .vStr s)
  else .error (.attributeError a)

/-- A JWT produced by `jwt.encode(payload, key, algorithm="HS256")`, modelled
as its claim list (in insertion order) together with the symmetric key it was
signed with; `jwt.decode` verifies the signature by comparing keys. -/
structure JwtBlob where
  claims : List (String × PyVal)
  key : String
  deriving DecidableEq

/-- A bearer string handed to `decode_token`: either not a structurally valid
signed JWT at all, or a well-formed blob (whose key may or may not match the
verifier's secret). -/
inductive JwtWire where
  | malformed
  | blob (b : JwtBlob)
  deriving DecidableEq

/-- `dict[k]` on the claim list: first binding or `KeyError`. -/
def lookupClaim (claims : List (String × PyVal)) (k : String) : Except Err PyVal :=
  match claims.find? (fun p => p.1 = k) with
  | some p => .ok p.2
  | none => .error (.keyError k)

/-- `app/utils/tokens.py` `encode_token` applied to an `AccessToken`: the
payload dict is built by reading `token.jti`, `token.user_id`,
`token.business`, `int(token.issued_at.timestamp())`,
`int(token.expires_at.timestamp())` in that order, then `payload["type"]`
is set from the token's class, and the dict is signed with
`config['SECRET_KEY']`. -/
def encode_token_access (t : AccessToken) (secretKey : String) : Except Err JwtBlob := do
  let jti ← t.pygetattr "jti"
  let userId ← t.pygetattr "user_id"
  let business ← t.pygetattr "business"
  let issuedAt ← t.pygetattr "issued_at"
  let expiresAt ← t.pygetattr "expires_at"
  .ok { claims := [("jti", jti), ("user_id", userId), ("business", business),
                   ("issued_at", issuedAt), ("expires_at", expiresAt),
                   ("type", .vStr "access")],
        key := secretKey }

/-- `app/utils/tokens.py` `encode_token` applied to a `RefreshToken`. -/
def encode_token_refresh (t : RefreshToken) (secretKey : String) : Except Err JwtBlob := do
  let jti ← t.pygetattr "jti"
  let userId ← t.pygetattr "user_id"
  let business ← t.pygetattr "business"
  let issuedAt ← t.pygetattr "issued_at"
  let expiresAt ← t.pygetattr "expires_at"
  .ok { claims := [("jti", jti), ("user_id", userId), ("business", business),
                   ("issued_at", issuedAt), ("expires_at", expiresAt),
                   ("type", .vStr "refresh")],
        key := secretKey }

/-- `app/utils/tokens.py` `decode_token(token, raise_exception=...)`:
`jwt.decode` re-verifies the HMAC-SHA256 signature (any `PyJWTError`,
i.e. a malformed blob or a key mismatch, is caught and re-raised as
`Unauthorized`); then the code reads `payload["expires_at"]` (a `KeyError`
here is NOT a `PyJWTError` and escapes the handler), compares it with
`datetime.utcnow().timestamp()` and, when expired, raises `Unauthorized`
only if `raise_exception` is true; otherwise the payload dict is returned. -/
def decode_token (w : JwtWire) (secretKey : String) (now : Int)
    (raiseException : Bool) : Except Err (List (String × PyVal)) :=
  match w with
  | .malformed => .error .unauthorized
  | .blob b =>
    if b.key ≠ secretKey then .error .unauthorized
    else
      match lookupClaim b.claims "expires_at" with
      | .error e => .error e
      | .ok (.vInt expiresAt) =>
        if expiresAt < now then
          if raiseException then .error .unauthorized else .ok b.claims
        else .ok b.claims
      | .ok _ => .error .typeError

/-- The relational store as far as the token engine touches it: the
`access_tokens` and `refresh_tokens` tables in insertion order. -/
structure TokenDB where
  access : List AccessToken
  refresh : List RefreshToken
  deriving DecidableEq

/-- The alive-only row filter used by every token read/update in
`app/services/tokens.py` and `app/repositories/tokens.py`:
`revoked == False AND expires_at >= now`. -/
def aliveFilter (revoked : Bool) (expires_at now : Int) : Bool :=
  !revoked && decide (expires_at ≥ now)

/-- `TokenService._get_token("access", jti, session)`:
`select(AccessToken).where(jti == jti AND revoked == False AND
expires_at >= utcnow()).first()`. -/
def TokenService.get_access_token (db : TokenDB) (jti : String) (now : Int) :
    Option AccessToken :=
  db.access.find? fun t => t.jti == jti && aliveFilter t.revoked t.expires_at now

/-- `TokenService._get_token("refresh", jti, session)`. -/
def TokenService.get_refresh_token (db : TokenDB) (jti : String) (now : Int) :
    Option RefreshToken :=
  db.refresh.find? fun t => t.jti == jti && aliveFilter t.revoked t.expires_at now

/-- `TokensRepository.get_token(class_=AccessToken, jti, alive_only)`:
`select(AccessToken).where(jti == jti)`, with the alive-only clause added
only when `alive_only` is set, `.first()`.  (The `joinedload` option only
eager-loads the relationship and does not change which row is returned.) -/
def TokensRepository.get_access_token (db : TokenDB) (jti : String)
    (alive_only : Bool) (now : Int) : Option AccessToken :=
  db.access.find? fun t =>
    t.jti == jti && (!alive_only || aliveFilter t.revoked t.expires_at now)

/-- `TokensRepository.get_token(class_=RefreshToken, jti, alive_only)`. -/
def TokensRepository.get_refresh_token (db : TokenDB) (jti : String)
    (alive_only : Bool) (now : Int) : Option RefreshToken :=
  db.refresh.find? fun t =>
    t.jti == jti && (!alive_only || aliveFilter t.revoked t.expires_at now)

/-- `TokenService._revoke_token_by_jti("access", jti, session)`:
`update(AccessToken).where(jti == jti AND revoked == False AND
expires_at >= utcnow()).values(revoked=True)`, returning the updated table
and the statement's `rowcount`. -/
def TokenService.revoke_access_by_jti (db : TokenDB) (jti : String) (now : Int) :
    TokenDB × Nat :=
  let hit := fun (t : AccessToken) => t.jti == jti && aliveFilter t.revoked t.expires_at now
  ({ db with access := db.access.map fun t => if hit t then { t with revoked := true } else t },
   (db.access.filter hit).length)

/-- `TokenService._revoke_token_by_jti("refresh", jti, session)`. -/
def TokenService.revoke_refresh_by_jti (db : TokenDB) (jti : String) (now : Int) :
    TokenDB × Nat :=
  let hit := fun (t : RefreshToken) => t.jti == jti && aliveFilter t.revoked t.expires_at now
  ({ db with refresh := db.refresh.map fun t => if hit t then { t with revoked := true } else t },
   (db.refresh.filter hit).length)

/-- The request data `_create_tokens_using_context` pulls out of the sanic
request held in the service context (`X-Real-IP` / `User-Agent` headers,
with their fallback values already applied). -/
structure RequestCtx where
  ip_addr : String
  user_agent : String
  deriving DecidableEq

/-- The class attributes of `AccessToken` that an instance `setattr` accepts:
every mapped column, the `refresh_token` relationship and the plain method
`is_alive` (an instance attribute may shadow a method).  The one exception is
`ip_address`: it is a getter-only `@property` (the mapped column is
`ip_addr`), so assigning to it raises `AttributeError`. -/
def AccessToken.assignableAttrNames : List String :=
  ["jti", "realm", "user_id", "business_code", "ip_addr", "user_agent",
   "issued_at", "expires_at", "revoked", "refresh_token_jti", "refresh_token",
   "is_alive"]

/-- SQLAlchemy's default declarative constructor (`app/db.py` uses a plain
`declarative_base()`, no custom `__init__`): for each keyword in order it
checks `hasattr(cls, k)` — a name the class lacks is a `TypeError` — and then
runs `setattr(self, k, v)`, which raises `AttributeError` when `k` names a
getter-only property. -/
def declarativeCtorCheck (attrNames assignable : List String) :
    List String → Except Err Unit
  | [] => .ok ()
  | a :: rest =>
    if !attrNames.contains a then .error .typeError
    else if !assignable.contains a then .error (.attributeError a)
    else declarativeCtorCheck attrNames assignable rest

/-- The keyword names `TokensRepository.create_tokens` passes to the
`RefreshToken(...)` constructor, in source order. -/
def refreshTokenCtorKwargs : List String :=
  ["user_id", "realm", "business_code", "issued_at", "expires_at"]

/-- The keyword names `TokensRepository.create_tokens` passes to the
`AccessToken(...)` constructor, in source order — note `ip_address`, not the
mapped column name `ip_addr`. -/
def accessTokenCtorKwargs : List String :=
  ["user_id", "realm", "business_code", "ip_address", "user_agent",
   "issued_at", "expires_at", "refresh_token_jti"]

/-- `TokensRepository.create_tokens(user_id, realm, business_code, ip_address,
user_agent)`: constructs a `RefreshToken` with `issued_at=now`,
`expires_at=now+14d`, flushes it, then calls `AccessToken(...,
ip_address=ip_address, ...)`.  That keyword names the getter-only
`ip_address` property of the model (the mapped column is `ip_addr`), so the
default declarative constructor raises `AttributeError` there — the access
row is never built, the back-patch `refresh_token.access_token_jti =
access_token.jti` is never reached, and the pending refresh insert is rolled
back when the exception unwinds the session.  The unreachable success tail
mirrors the remaining source lines. -/
def TokensRepository.create_tokens (db : TokenDB) (user_id : Int)
    (realm : Option Realm) (business_code : Option String)
    (ip_address user_agent : String) (now : Int)
    (refresh_jti access_jti : String) :
    Except Err (AccessToken × RefreshToken × TokenDB) :=
  match declarativeCtorCheck RefreshToken.attrNames RefreshToken.attrNames
      refreshTokenCtorKwargs with
  | .error e => .error e
  | .ok _ =>
    let refresh_token : RefreshToken :=
      { jti := refresh_jti, realm := realm, user_id := user_id, revoked := false,
        issued_at := now, expires_at := now + 14 * 86400,
        business_code := business_code, access_token_jti := none }
    match declarativeCtorCheck AccessToken.attrNames
        AccessToken.assignableAttrNames accessTokenCtorKwargs with
    | .error e => .error e
    | .ok _ =>
      let access_token : AccessToken :=
        { jti := access_jti, realm := realm, user_id := user_id,
          business_code := business_code, ip_addr := ip_address,
          user_agent := user_agent, issued_at := now,
          expires_at := now + 7 * 86400, revoked := false,
          refresh_token_jti := refresh_token.jti }
      let refresh_patched : RefreshToken :=
        { refresh_token with access_token_jti := some access_token.jti }
      .ok (access_token, refresh_patched,
        { db with refresh := db.refresh ++ [refresh_patched],
                  access := db.access ++ [access_token] })

/-- `app/models/otp.py` `OTP` row (the `id` primary key is irrelevant to the
claims and omitted): `phone`, `business_code` (nullable), `realm`, `code`,
`sent_at`, `expires_at`, `used`, `revoked`. -/
structure OTP where
  phone : String
  business_code : Option String
  realm : Realm
  code : String
  sent_at : Int
  expires_at : Int
  used : Bool
  revoked : Bool
  deriving DecidableEq

/-- `OTPRepository.get_otps(phone, business_code, expiration)`:
`select(OTP).where(phone == phone AND business_code == business_code AND
expires_at <= expiration).all()` — the filter is on `expires_at`, not on
`sent_at`. -/
def OTPRepository.get_otps (db : List OTP) (phone business_code : String)
    (expiration : Int) : List OTP :=
  db.filter fun o =>
    o.phone == phone && o.business_code == some business_code &&
      decide (o.expires_at ≤ expiration)

/-- `OTPRepository.revoke_otps(phone, business_code)`:
`update(OTP).where(phone AND business_code AND NOT revoked AND NOT used)
.values(revoked=True)`, returning the updated table and the `rowcount`. -/
def OTPRepository.revoke_otps (db : List OTP) (phone business_code : String) :
    List OTP × Nat :=
  let hit := fun (o : OTP) =>
    o.phone == phone && o.business_code == some business_code &&
      !o.revoked && !o.used
  (db.map fun o => if hit o then { o with revoked := true } else o,
   (db.filter hit).length)

/-- `OTPRepository.create(phone, realm, business_code, code, sent_at,
expiration)`: raises `BusinessDoesNotExist` when no `Business` row carries
`business_code` (the existence query is abstracted as `businessExists`),
otherwise inserts the OTP row with `used`/`revoked` at their `False`
defaults and returns it. -/
def OTPRepository.create (db : List OTP) (businessExists : String → Bool)
    (phone : String) (realm : Realm) (business_code : String) (code : String)
    (sent_at expiration : Int) : Except Err (OTP × List OTP) :=
  if businessExists business_code then
    let instance_ : OTP :=
      { phone := phone, business_code := some business_code, realm := realm,
        code := code, sent_at := sent_at, expires_at := expiration,
        used := false, revoked := false }
    .ok (instance_, db ++ [instance_])
  else .error .businessDoesNotExist

/-- The keyword parameters of `AuthorizationService.send_otp` with their
declared defaults (`code_lifetime=5min`, `sms_cooldown=30s`,
`revoke_old=True`, `sms_limit=10`, `sms_limit_time=3h`), in seconds. -/
structure SendOtpParams where
  code_lifetime : Int
  sms_cooldown : Int
  revoke_old : Bool
  sms_limit : Nat
  sms_limit_time : Int
  deriving DecidableEq

/-- The default `SendOtpParams`. -/
def sendOtpDefaults : SendOtpParams :=
  { code_lifetime := 300, sms_cooldown := 30, revoke_old := true,
    sms_limit := 10, sms_limit_time := 10800 }

/-- `AuthorizationService.send_otp(phone, realm, business, ...)`:
1. `now = utcnow()`;
2. `get_otps(phone, business, now - sms_cooldown)`: non-empty ⇒ `SMSCooldown`;
3. `get_otps(phone, business, now - sms_limit_time)`: `len >= sms_limit` ⇒
   `SMSCooldown`;
4. if `revoke_old`, `revoke_otps(phone, business)`;
5. `code = random_code()` (a 6-digit format of the `draw` argument);
6. `create(phone, realm, business, code, now, now + code_lifetime)`;
7. dispatch the SMS (fire-and-forget, not modelled) and return the code. -/
def AuthorizationService.send_otp (db : List OTP)
    (businessExists : String → Bool) (phone : String) (realm : Realm)
    (business : String) (now : Int) (draw : Nat) (p : SendOtpParams) :
    Except Err (String × List OTP) :=
  if (OTPRepository.get_otps db phone business (now - p.sms_cooldown)) ≠ [] then
    .error .smsCooldown
  else if p.sms_limit ≤ (OTPRepository.get_otps db phone business (now - p.sms_limit_time)).length then
    .error .smsCooldown
  else
    let db1 := if p.revoke_old then (OTPRepository.revoke_otps db phone business).1 else db
    let code := random_code 6 draw
    match OTPRepository.create db1 businessExists phone realm business code now (now + p.code_lifetime) with
    | .error e => .error e
    | .ok (_, db2) => .ok (code, db2)

/-- `app/models/user.py` `User` row: `id`, `phone`, `password` (nullable
bcrypt hash), `is_admin`, plus the one-to-one `business` relationship
(`uselist=False`, so its Python value is a `Business` or `None`). -/
structure User where
  id : Int
  phone : String
  password : Option String
  is_admin : Bool
  business : Option Business
  deriving DecidableEq

/-- The attribute names a `User` instance exposes: mapped columns, the
`business` relationship and the methods of `app/models/user.py`.
There is no `businesses` attribute. -/
def User.attrNames : List String :=
  ["id", "phone", "password", "is_admin", "business",
   "check_password", "set_password"]

/-- Python attribute access on a `User` ORM instance: defined exactly for the
data attributes of `app/models/user.py`, `AttributeError` otherwise. -/
def User.pygetattr (u : User) (a : String) : Except Err PyVal :=
  if a = "id" then .ok (.vInt u.id)
  else if a = "phone" then .ok (.vStr u.phone)
  else if a = "password" then .ok (match u.password with | none => .vNone | some p => .vStr p)
  else if a = "is_admin" then .ok (.vBool u.is_admin)
  else if a = "business" then .ok (match u.business with | none => .vNone | some b => .vBusiness b)
  else .error (.attributeError a)

/-- `AuthorizationService.business_admin_login(phone, password)`:
1. `get_user(phone=phone, use_cache=False)` (its result is the `user`
   argument);
2. `if not user: raise UserDoesNotExist`;
3. `if not user.businesses: raise UserHasNoBusinesses` — the attribute read
   comes first, and `User` defines `business`, not `businesses`;
4. `if user.businesses and not user.password: raise YouAreRetardedError`;
5. `if not user.check_password(password): raise WrongPassword` —
   `check_password` is `bcrypt.checkpw(plain, self.password)`, abstracted as
   the `checkpw` predicate;
6. `tokens_service.create_tokens(user.id, self.context["request"], Realm.web)`
   (a `KeyError` when the service context holds no request), which runs
   `TokensRepository.create_tokens(user.id, Realm.web, None, ip, ua)` — a call
   that itself raises `AttributeError` on the `ip_address=` keyword;
7. return `(user, access, refresh)`. -/
def AuthorizationService.business_admin_login (db : TokenDB)
    (user : Option User) (password : String)
    (checkpw : String → String → Bool) (ctx : Option RequestCtx) (now : Int)
    (refresh_jti access_jti : String) :
    Except Err (User × AccessToken × RefreshToken × TokenDB) :=
  match user with
  | none => .error .userDoesNotExist
  | some u =>
    match u.pygetattr "businesses" with
    | .error e => .error e
    | .ok businessesVal =>
      if !businessesVal.pyTruthy then .error .userHasNoBusinesses
      else if businessesVal.pyTruthy && !pyOptStrTruthy u.password then
        .error .youAreRetarded
      else if !checkpw password (u.password.getD "") then .error .wrongPassword
      else
        match ctx with
        | none => .error (.keyError "request")
        | some request =>
          match TokensRepository.create_tokens db u.id (some .web) none
              request.ip_addr request.user_agent now refresh_jti access_jti with
          | .error e => .error e
          | .ok (access, refresh, db1) => .ok (u, access, refresh, db1)

/-- A byte string stored in redis by this code base: either `pickle.dumps` of
a cacheable entity (written at a canonical key) or the text of a canonical
key (written at a reference key). -/
inductive CacheVal (E : Type) where
  | entity (e : E)
  | ref (key : String)
  deriving DecidableEq

/-- Python truthiness of cached bytes: a pickled entity is never empty; the
bytes of a key are empty exactly when the key text is. -/
def CacheVal.pyTruthy {E : Type} : CacheVal E → Bool
  | .entity _ => true
  | .ref k => k ≠ ""

/-- `CacheableMixin.from_bytes` (`pickle.loads`): succeeds on entity bytes,
raises `UnpicklingError` on key text (which is not a pickle). -/
def CacheVal.from_bytes {E : Type} : CacheVal E → Except Err E
  | .entity e => .ok e
  | .ref _ => .error .unpicklingError

/-- Bytes reused as a redis key (`cache_get(main_key)` after
`search_main_key`): key text is the key it spells; pickled-entity bytes never
coincide with any key this code writes, so they match no entry. -/
def CacheVal.asKey {E : Type} : CacheVal E → Option String
  | .entity _ => none
  | .ref k => some k

/-- One redis entry: key, stored bytes, and the TTL (`ex=`) it was written
with. -/
structure CacheEntry (E : Type) where
  key : String
  val : CacheVal E
  ttl : Nat
  deriving DecidableEq

/-- The redis store: a set of entries modelled as a list where the most
recent write for a key shadows older ones. -/
abbrev Cache (E : Type) : Type := List (CacheEntry E)

/-- `RedisCacheMixin.cache_get(key)`. -/
def cacheGet {E : Type} (c : Cache E) (k : String) : Option (CacheVal E) :=
  (List.find? (fun e => e.key == k) c).map (fun e => e.val)

/-- `RedisCacheMixin.cache_set(key, value, ex=ttl)`: redis SET overwrites. -/
def cacheSet {E : Type} (c : Cache E) (k : String) (v : CacheVal E) (ttl : Nat) :
    Cache E :=
  { key := k, val := v, ttl := ttl } :: List.filter (fun e => e.key != k) c

/-- The class-level half of the `CacheableMixin` interface
(`app/mixins/cacheable.py` / `app/base/model.py`) that `with_cache` and
`cache_instance` consume: lookup-key derivation from a lookup value and
key derivation from an instance. -/
structure CacheClass (E : Type) where
  lookup_key : String → String
  lookup_reference_keys : String → List String
  get_key : E → String
  get_reference_keys : E → List String

/-- `RedisCacheMixin.get_instance_from_cache_by_key(key, class_)`:
`cache_get`, and when the bytes are truthy, `class_.from_bytes(cached)`. -/
def RedisCacheMixin.get_instance_from_cache_by_key {E : Type} (c : Cache E)
    (k : String) : Except Err (Option E) :=
  match cacheGet c k with
  | none => .ok none
  | some v =>
    if v.pyTruthy then (v.from_bytes).map some else .ok none

/-- `RedisCacheMixin.search_main_key(reference_keys)`: the first truthy cached
value among the reference keys, in order. -/
def RedisCacheMixin.search_main_key {E : Type} (c : Cache E)
    (reference_keys : List String) : Option (CacheVal E) :=
  match reference_keys with
  | [] => none
  | r :: rest =>
    match cacheGet c r with
    | some v => if v.pyTruthy then some v else RedisCacheMixin.search_main_key c rest
    | none => RedisCacheMixin.search_main_key c rest

/-- `RedisCacheMixin.cache_instance(instance, ex=3600)`: write
`main_key := instance.get_key()` ↦ entity bytes, then every reference key ↦
the main key's text, all with the same `ex`. -/
def RedisCacheMixin.cache_instance {E : Type} (cls : CacheClass E) (inst : E)
    (c : Cache E) (ex : Nat) : Cache E :=
  let main_key := cls.get_key inst
  let c1 := cacheSet c main_key (.entity inst) ex
  (cls.get_reference_keys inst).foldl (fun acc r => cacheSet acc r (.ref main_key) ex) c1

deriving instance DecidableEq for Except

/-- The observable outcome of one `with_cache` call: the returned value (or
raised exception), how many times the loader coroutine was awaited, and the
cache afterwards. -/
structure WithCacheResult (E : Type) where
  result : Except Err (Option E)
  loader_calls : Nat
  cache : Cache E
  deriving DecidableEq

/-- `RedisCacheMixin.with_cache(class_, key, getter, ...)`:
1. `lookup_key = class_.lookup_key(key)`; on a truthy cached instance,
   return it;
2. else `ref_keys = class_.lookup_reference_keys(key)`; when non-empty,
   `main_key = search_main_key(ref_keys)`; when `main_key` is truthy and the
   instance cached under it is truthy, return it;
3. else await the getter once; a non-`None` result is written through
   `cache_instance` (default `ex=60*60`) before being returned.
The getter is abstracted by the value it would return. -/
def RedisCacheMixin.with_cache {E : Type} (cls : CacheClass E) (key : String)
    (getter : Option E) (c : Cache E) : WithCacheResult E :=
  let lookup_key := cls.lookup_key key
  match RedisCacheMixin.get_instance_from_cache_by_key c lookup_key with
  | .error e => ⟨.error e, 0, c⟩
  | .ok (some result) => ⟨.ok (some result), 0, c⟩
  | .ok none =>
    let ref_keys := cls.lookup_reference_keys key
    let main_key := if ref_keys ≠ [] then RedisCacheMixin.search_main_key c ref_keys else none
    let deref : Except Err (Option E) :=
      match main_key with
      | none => .ok none
      | some mk =>
        if mk.pyTruthy then
          match mk.asKey with
          | none => .ok none
          | some k => RedisCacheMixin.get_instance_from_cache_by_key c k
        else .ok none
    match deref with
    | .error e => ⟨.error e, 0, c⟩
    | .ok (some result) => ⟨.ok (some result), 0, c⟩
    | .ok none =>
      match getter with
      | none => ⟨.ok none, 1, c⟩
      | some inst => ⟨.ok (some inst), 1, RedisCacheMixin.cache_instance cls inst c (60 * 60)⟩

/-- The `User` cacheable configuration of `app/models/user.py`
(`__tablename__ = "users"`, `__cache_key_attr__ = ["id", "phone"]`) pushed
through the key derivations of `app/base/model.py`:
`lookup_key(k) = "users:{k}"`,
`lookup_reference_keys(k) = ["ref:users:phone:{k}"]`,
`get_key(u) = "users:{u.id}"`,
`get_reference_keys(u) = ["ref:users:phone:{u.phone}"]`. -/
def User.cacheClass : CacheClass User :=
  { lookup_key := fun key => "users:" ++ key,
    lookup_reference_keys := fun key => ["ref:users:phone:" ++ key],
    get_key := fun u => "users:" ++ toString u.id,
    get_reference_keys := fun u => ["ref:users:phone:" ++ u.phone] }

/-- Concrete sample user for witnesses. -/
def sampleUser : User :=
  { id := 1, phone := "+15551234567", password := none, is_admin := false,
    business := none }

/-- A cache holding only a dangling reference key: `ref:users:phone:…` points
at the canonical key `users:1`, but no record is cached under `users:1`. -/
def staleCache : Cache User :=
  [{ key := "ref:users:phone:+15551234567", val := .ref "users:1", ttl := 3600 }]

/-- A cache holding `sampleUser` under its canonical key. -/
def hitCache : Cache User :=
  [{ key := "users:1", val := .entity sampleUser, ttl := 3600 }]

/-- Concrete sample access token for witnesses (mobile realm, paired with
`sampleRefresh`). -/
def sampleAccess : AccessToken :=
  { jti := "a1", realm := some .mobile, user_id := 1,
    business_code := some "BIZCODEBIZCODE01", ip_addr := "1.2.3.4",
    user_agent := "ua", issued_at := 0, expires_at := 604800,
    revoked := false, refresh_token_jti := "r1" }

/-- Concrete sample refresh token paired with `sampleAccess`. -/
def sampleRefresh : RefreshToken :=
  { jti := "r1", realm := some .mobile, user_id := 1, revoked := false,
    issued_at := 0, expires_at := 1209600,
    business_code := some "BIZCODEBIZCODE01", access_token_jti := some "a1" }

/-- A store holding exactly the pair `(sampleAccess, sampleRefresh)`. -/
def sampleDB : TokenDB := { access := [sampleAccess], refresh := [sampleRefresh] }

/-- An OTP row sent at `t = 0` with the default 5-minute lifetime. -/
def otpRecent : OTP :=
  { phone := "+15551234567", business_code := some "BIZCODEBIZCODE01",
    realm := .mobile, code := "111111", sent_at := 0, expires_at := 300,
    used := false, revoked := false }

/-- A well-formed JWT blob signed with the key `"secret"`, shaped like the
envelopes this code base mints, expiring at `t = 100`. -/
def sampleBlob : JwtBlob :=
  { claims := [("jti", .vStr "a1"), ("user_id", .vInt 1), ("business", .vNone),
               ("issued_at", .vInt 0), ("expires_at", .vInt 100),
               ("type", .vStr "access")],
    key := "secret" }

/-- C8: the claim says `random_code(n)` always returns a zero-padded decimal
string of exactly `n` digits.  The code draws `random.randint(1, pow(10, n))`,
whose INCLUSIVE upper endpoint `10^n` has `n+1` digits, so the draw `10^n`
(admissible for the default `n = 6`) formats to the 7-character string
`"1000000"`. -/
theorem random_code_draw_can_exceed_length :
    randintRange 1 (randomCodeUpperBound 6) 1000000 ∧
    random_code 6 1000000 = "1000000" ∧
    (random_code 6 1000000).length = 7 := by
  refine ⟨by decide, by decide, by decide⟩

/-- C2: the claim says the encoded envelope carries exactly the claims
`{jti, user_id, realm, business_code, issued_at, expires_at, type}`.  The
code instead builds the payload with a `"business"` entry read from
`token.business` — an attribute neither `AccessToken` nor `RefreshToken`
defines (the models map `business_code`) — so `encode_token` raises
`AttributeError` on every access and refresh token and never emits a `realm`
claim. -/
theorem encode_token_reads_missing_business_attribute
    (t : AccessToken) (r : RefreshToken) (secretKey : String) :
    encode_token_access t secretKey = .error (.attributeError "business") ∧
    encode_token_refresh r secretKey = .error (.attributeError "business") ∧
    AccessToken.attrNames.contains "business" = false ∧
    RefreshToken.attrNames.contains "business" = false := by
  refine ⟨rfl, rfl, by decide, by decide⟩

/-- C7: the claim says web password login walks the cascade UserDoesNotExist →
UserHasNoBusinesses → internal error → WrongPassword → token pair.  The
missing-user case does fail with `UserDoesNotExist`, but for EVERY existing
user the very next check reads `user.businesses`, an attribute the `User`
model does not define (it defines `business`), so the login raises
`AttributeError` before any of the remaining checks can run. -/
theorem business_admin_login_reads_missing_businesses_attribute
    (db : TokenDB) (u : User) (password : String)
    (checkpw : String → String → Bool) (ctx : Option RequestCtx) (now : Int)
    (refresh_jti access_jti : String) :
    AuthorizationService.business_admin_login db none password checkpw ctx now
        refresh_jti access_jti = .error .userDoesNotExist ∧
    AuthorizationService.business_admin_login db (some u) password checkpw ctx
        now refresh_jti access_jti = .error (.attributeError "businesses") ∧
    User.attrNames.contains "businesses" = false := by
  refine ⟨rfl, rfl, by decide⟩

/-- C3: the claim says every pair created together by
`TokensRepository.create_tokens` is cross-linked (`a.refresh_token_jti =
r.jti`, back-patched `r.access_token_jti = a.jti`) and shares `(user_id,
realm, business_code)`.  The repository never creates a pair at all: the
`AccessToken(...)` call passes the keyword `ip_address`, which is an
attribute of the class (so no `TypeError`) but a getter-only property —
the mapped column is `ip_addr` — so SQLAlchemy's default declarative
constructor raises `AttributeError` on every call, before the access row or
the back-patch exists. -/
theorem create_tokens_raises_attribute_error (db : TokenDB) (user_id : Int)
    (realm : Option Realm) (business_code : Option String)
    (ip_address user_agent : String) (now : Int)
    (refresh_jti access_jti : String) :
    TokensRepository.create_tokens db user_id realm business_code ip_address
        user_agent now refresh_jti access_jti =
      .error (.attributeError "ip_address") ∧
    AccessToken.attrNames.contains "ip_address" = true ∧
    AccessToken.assignableAttrNames.contains "ip_address" = false := by
  refine ⟨rfl, by decide, by decide⟩

/-- C5 counterexample: the claim says the alive-only read at or after
`expires_at` returns none; but `sampleAccess` (not revoked, expiring at
604800) is still returned by both the service read and the repository
alive-only read at `now = expires_at`, because the SQL filter is
`expires_at >= now`, not `expires_at > now`. -/
theorem get_token_at_expiry_still_found :
    TokenService.get_access_token sampleDB "a1" 604800 = some sampleAccess ∧
    TokensRepository.get_access_token sampleDB "a1" true 604800 = some sampleAccess ∧
    TokenService.get_refresh_token sampleDB "r1" 1209600 = some sampleRefresh := by
  refine ⟨by decide, by decide, by decide⟩

/-- C5 amended: the alive-only read implements `¬revoked ∧ expires_at ≥ now`:
for an unrevoked token it returns the token at `expires_at - ε` AND still at
`expires_at` exactly, returns none strictly after `expires_at`, and any token
an alive-only read returns satisfies `jti-match ∧ ¬revoked ∧ expires_at ≥
now`. -/
theorem get_token_alive_only_boundaries
    (t : AccessToken) (r : RefreshToken)
    (ht : t.revoked = false) (hr : r.revoked = false) :
    (∀ ε : Int, 0 < ε →
      TokenService.get_access_token ⟨[t], [r]⟩ t.jti (t.expires_at - ε) = some t) ∧
    TokenService.get_access_token ⟨[t], [r]⟩ t.jti t.expires_at = some t ∧
    (∀ now : Int, t.expires_at < now →
      TokenService.get_access_token ⟨[t], [r]⟩ t.jti now = none) ∧
    (∀ ε : Int, 0 < ε →
      TokenService.get_refresh_token ⟨[t], [r]⟩ r.jti (r.expires_at - ε) = some r) ∧
    TokenService.get_refresh_token ⟨[t], [r]⟩ r.jti r.expires_at = some r ∧
    (∀ now : Int, r.expires_at < now →
      TokenService.get_refresh_token ⟨[t], [r]⟩ r.jti now = none) ∧
    (∀ db jti now, TokensRepository.get_access_token db jti true now =
      TokenService.get_access_token db jti now) ∧
    (∀ (db : TokenDB) (jti : String) (now : Int) (x : AccessToken),
      TokenService.get_access_token db jti now = some x →
      x.jti = jti ∧ x.revoked = false ∧ now ≤ x.expires_at) := by
  refine ⟨?_, ?_, ?_, ?_, ?_, ?_, ?_, ?_⟩
  · intro ε hε
    have h0 : (0 : Int) ≤ ε := le_of_lt hε
    simp [TokenService.get_access_token, List.find?, aliveFilter, ht, h0]
  · simp [TokenService.get_access_token, List.find?, aliveFilter, ht]
  · intro now hnow
    have h0 : ¬ now ≤ t.expires_at := not_le.mpr hnow
    simp [TokenService.get_access_token, List.find?, aliveFilter, ht, h0]
  · intro ε hε
    have h0 : (0 : Int) ≤ ε := le_of_lt hε
    simp [TokenService.get_refresh_token, List.find?, aliveFilter, hr, h0]
  · simp [TokenService.get_refresh_token, List.find?, aliveFilter, hr]
  · intro now hnow
    have h0 : ¬ now ≤ r.expires_at := not_le.mpr hnow
    simp [TokenService.get_refresh_token, List.find?, aliveFilter, hr, h0]
  · intro db jti now
    rfl
  · intro db jti now x hx
    have hmem := List.find?_some hx
    simp [aliveFilter] at hmem
    exact ⟨hmem.1, hmem.2.1, hmem.2.2⟩

/-- Witness for `get_token_alive_only_boundaries` at the sample pair. -/
theorem get_token_alive_only_boundaries_witness :
    TokenService.get_access_token ⟨[sampleAccess], [sampleRefresh]⟩
      sampleAccess.jti sampleAccess.expires_at = some sampleAccess :=
  (get_token_alive_only_boundaries sampleAccess sampleRefresh rfl rfl).2.1

/-- C4: the claim says a second send for the same `(phone, business_code)`
within `sms_cooldown` fails with `SmsCooldown`.  With the store holding
`otpRecent` (sent at `t = 0`, so sent 10 s ≤ 30 s ago at `now = 10`), the
send nevertheless succeeds, because `OTPRepository.get_otps` filters on
`expires_at ≤ now - sms_cooldown` (rows that EXPIRED at least a cooldown
ago) instead of `sent_at ≥ now - sms_cooldown`, and the fresh row's
`expires_at = 300` never matches. -/
theorem send_otp_within_cooldown_succeeds :
    otpRecent.sent_at ≥ 10 - sendOtpDefaults.sms_cooldown ∧
    OTPRepository.get_otps [otpRecent] "+15551234567" "BIZCODEBIZCODE01"
      (10 - sendOtpDefaults.sms_cooldown) = [] ∧
    exceptOk (AuthorizationService.send_otp [otpRecent] (fun _ => true)
      "+15551234567" .mobile "BIZCODEBIZCODE01" 10 424242 sendOtpDefaults) = true := by
  refine ⟨by decide, by decide, by decide⟩

/-- C10: `decode_token` with `raise_exception=False` suppresses only the
expiry failure: an expired but correctly-signed envelope's payload is still
returned (and with the flag set it raises `Unauthorized`), while a malformed
bearer or one signed with the wrong key raises `Unauthorized` regardless of
the flag. -/
theorem decode_token_flag_suppresses_only_expiry
    (b : JwtBlob) (secretKey : String) (now expiresAt : Int)
    (hsig : b.key = secretKey)
    (hexp : lookupClaim b.claims "expires_at" = .ok (.vInt expiresAt))
    (hexpired : expiresAt < now) :
    decode_token (.blob b) secretKey now false = .ok b.claims ∧
    decode_token (.blob b) secretKey now true = .error .unauthorized ∧
    (∀ flag, decode_token .malformed secretKey now flag = .error .unauthorized) ∧
    (∀ (b2 : JwtBlob) (flag : Bool), b2.key ≠ secretKey →
      decode_token (.blob b2) secretKey now flag = .error .unauthorized) := by
  refine ⟨?_, ?_, ?_, ?_⟩
  · simp [decode_token, hsig, hexp, hexpired]
  · simp [decode_token, hsig, hexp, hexpired]
  · intro flag
    rfl
  · intro b2 flag hb2
    simp [decode_token, hb2]

/-- Witness for `decode_token_flag_suppresses_only_expiry` at `sampleBlob`
(signed with `"secret"`, expiring at 100) read at `now = 2000`. -/
theorem decode_token_flag_suppresses_only_expiry_witness :
    decode_token (.blob sampleBlob) "secret" 2000 false = .ok sampleBlob.claims :=
  (decode_token_flag_suppresses_only_expiry sampleBlob "secret" 2000 100 rfl
    (by decide) (by decide)).1

/-- C6 counterexample: the claim says the loader is invoked ONLY when both
the canonical key and all reference keys miss.  In `staleCache` the (only)
reference key for the lookup value is present — it holds the canonical key
`users:1` — yet the dereferenced canonical record is absent, so `with_cache`
still invokes the loader (here: once, returning its `none`). -/
theorem with_cache_loader_despite_reference_hit :
    cacheGet staleCache ("ref:users:phone:+15551234567") = some (.ref "users:1") ∧
    User.cacheClass.lookup_reference_keys "+15551234567" =
      ["ref:users:phone:+15551234567"] ∧
    (RedisCacheMixin.with_cache User.cacheClass "+15551234567" none
      staleCache).loader_calls = 1 := by
  refine ⟨by decide, by decide, by decide⟩

/-- C6 amended: `with_cache` returns the cached entity on a canonical hit
without touching the loader; on a canonical miss it dereferences the first
non-empty reference value one hop and returns the entity cached there; the
loader runs (exactly once) precisely when the canonical key misses AND the
reference chase yields no cached entity — including the case of a dangling
reference key — and a non-`None` loader result is written through
`cache_instance` (canonical key ↦ entity, reference keys ↦ canonical key,
all with TTL 3600) before being returned; the loader never runs twice. -/
theorem with_cache_read_through {E : Type} [DecidableEq E]
    (cls : CacheClass E) (key : String) (getter : Option E) (c : Cache E) :
    (∀ e : E, cacheGet c (cls.lookup_key key) = some (.entity e) →
      RedisCacheMixin.with_cache cls key getter c = ⟨.ok (some e), 0, c⟩) ∧
    (cacheGet c (cls.lookup_key key) = none →
      ∀ (mk : String) (e : E),
        RedisCacheMixin.search_main_key c (cls.lookup_reference_keys key) =
          some (.ref mk) →
        mk ≠ "" → cacheGet c mk = some (.entity e) →
        RedisCacheMixin.with_cache cls key getter c = ⟨.ok (some e), 0, c⟩) ∧
    (cacheGet c (cls.lookup_key key) = none →
      RedisCacheMixin.search_main_key c (cls.lookup_reference_keys key) = none →
      (RedisCacheMixin.with_cache cls key getter c).loader_calls = 1 ∧
      (RedisCacheMixin.with_cache cls key getter c).result = .ok getter ∧
      (∀ inst : E, getter = some inst →
        (RedisCacheMixin.with_cache cls key getter c).cache =
          RedisCacheMixin.cache_instance cls inst c 3600) ∧
      (getter = none → (RedisCacheMixin.with_cache cls key getter c).cache = c)) ∧
    (cacheGet c (cls.lookup_key key) = none →
      ∀ mk : String,
        RedisCacheMixin.search_main_key c (cls.lookup_reference_keys key) =
          some (.ref mk) →
        mk ≠ "" → cacheGet c mk = none →
        (RedisCacheMixin.with_cache cls key getter c).loader_calls = 1 ∧
        (RedisCacheMixin.with_cache cls key getter c).result = .ok getter) ∧
    (RedisCacheMixin.with_cache cls key getter c).loader_calls ≤ 1 := by
  refine ⟨?_, ?_, ?_, ?_, ?_⟩
  · intro e h
    simp [RedisCacheMixin.with_cache, RedisCacheMixin.get_instance_from_cache_by_key,
      h, CacheVal.pyTruthy, CacheVal.from_bytes, Except.map]
  · intro hnone mk e hs hmk hget
    have hne : cls.lookup_reference_keys key ≠ [] := by
      intro hk
      rw [hk] at hs
      simp [RedisCacheMixin.search_main_key] at hs
    simp [RedisCacheMixin.with_cache, RedisCacheMixin.get_instance_from_cache_by_key,
      hnone, hne, hs, hget, CacheVal.pyTruthy, CacheVal.from_bytes, CacheVal.asKey,
      hmk, Except.map]
  · intro hnone hs
    by_cases hrk : cls.lookup_reference_keys key = []
    · cases getter <;>
        simp [RedisCacheMixin.with_cache, RedisCacheMixin.get_instance_from_cache_by_key,
          hnone, hrk, RedisCacheMixin.cache_instance]
    · cases getter <;>
        simp [RedisCacheMixin.with_cache, RedisCacheMixin.get_instance_from_cache_by_key,
          hnone, hrk, hs, RedisCacheMixin.cache_instance]
  · intro hnone mk hs hmk hget
    have hne : cls.lookup_reference_keys key ≠ [] := by
      intro hk
      rw [hk] at hs
      simp [RedisCacheMixin.search_main_key] at hs
    cases getter <;>
      simp [RedisCacheMixin.with_cache, RedisCacheMixin.get_instance_from_cache_by_key,
        hnone, hne, hs, hget, CacheVal.pyTruthy, CacheVal.asKey, hmk]
  · unfold RedisCacheMixin.with_cache
    split <;> dsimp only <;> (split <;> try simp) <;> (split <;> simp)

/-- Witness for `with_cache_read_through`: a canonical-key hit on `hitCache`
returns the cached `sampleUser` without calling the loader. -/
theorem with_cache_read_through_witness :
    RedisCacheMixin.with_cache User.cacheClass "1" none hitCache =
      ⟨.ok (some sampleUser), 0, hitCache⟩ :=
  (with_cache_read_through User.cacheClass "1" none hitCache).1 sampleUser (by decide)

/-- Revoking a refresh token rewrites only the `refresh_tokens` table. -/
theorem revoke_refresh_preserves_access (db : TokenDB) (jti : String)
    (now : Int) :
    ((TokenService.revoke_refresh_by_jti db jti now).1).access = db.access := rfl

/-- Revoking an access token rewrites only the `access_tokens` table. -/
theorem revoke_access_preserves_refresh (db : TokenDB) (jti : String)
    (now : Int) :
    ((TokenService.revoke_access_by_jti db jti now).1).refresh = db.refresh := rfl

